import Mathlib

/-!
Verification of the front-end control coordinator of Me-TV_Rust
(src/control_window_button.rs), shallowly embedded in Lean 4.

The coordinator state (`ControlWindowButton`) mirrors the Rust struct of the
same name; GTK widgets holding a single value (the toggle button, the combo
box channel selectors, the channel-number entry) are embedded as plain fields
holding that value.  Calls into external collaborators (the playback engine,
the preference store, dialogs, logging) are recorded in an event list.
Rust panics (panic!, assert_eq!, Option::unwrap on None) are embedded as
`Except.error` results carrying a `Panic` value.
-/

namespace MeTV

/-- Identity of a tuner front end: adapter and frontend indices
(frontend_manager.rs, interface only). -/
structure FrontendId where
  adapter : Nat
  frontend : Nat
deriving DecidableEq

/-- A targetted remote-control keystroke (remote_control.rs, interface only):
`value > 0` is press/repeat, `value = 0` is release. -/
structure TargettedKeystroke where
  frontend_id : FrontendId
  keystroke : Nat
  value : Nat
deriving DecidableEq

/-- Linux input event codes used by `process_targetted_keystroke`
(crate input_event_codes; standard values from input-event-codes.h). -/
def KEY_CHANNELUP : Nat := 402
def KEY_CHANNELDOWN : Nat := 403
def KEY_VOLUMEUP : Nat := 115
def KEY_VOLUMEDOWN : Nat := 114
def KEY_NUMERIC_0 : Nat := 512
def KEY_NUMERIC_1 : Nat := 513
def KEY_NUMERIC_2 : Nat := 514
def KEY_NUMERIC_3 : Nat := 515
def KEY_NUMERIC_4 : Nat := 516
def KEY_NUMERIC_5 : Nat := 517
def KEY_NUMERIC_6 : Nat := 518
def KEY_NUMERIC_7 : Nat := 519
def KEY_NUMERIC_8 : Nat := 520
def KEY_NUMERIC_9 : Nat := 521

/-- The kind of video widget held by the playback engine, as discovered by the
downcast chain in `on_channel_changed`: a `gtk::DrawingArea`, a `gtk::GLArea`
(whose `get_context()` may or may not yield a context), or something else
(which the code treats as a fatal condition). -/
inductive WidgetKind where
  | drawingArea : WidgetKind
  | glArea : Option Unit → WidgetKind
  | other : WidgetKind
deriving DecidableEq

/-- Modelled from the spec: the playback window (frontend_window.rs is not in
the given sources).  It bundles the two synchronized channel selectors of the
expanded and fullscreen surfaces, the volume button state read and written by
`process_targetted_keystroke`, the window/header-bar titles written by
`on_channel_changed`, and the video widget kind probed there.  Each GTK
value-holding widget is embedded as a field holding its value. -/
structure FrontendWindow where
  channel_selector : Nat
  fullscreen_channel_selector : Nat
  volume_value : ℚ
  volume_step_increment : ℚ
  volume_lower : ℚ
  volume_upper : ℚ
  window_title : String
  headerbar_title : String
  video_widget : WidgetKind
deriving DecidableEq

/-- The per-front-end coordinator, mirroring struct `ControlWindowButton`.
`frontend_button_active` is the toggle button state, `channel_selector` the
active index of the local combo box, `channel_number_entry_text` and
`channel_number_entry_progress` the text and progress fraction of the
channel-number entry, `channel_number_dialog_visible` the visibility of the
entry dialog.  `timers` records the texts captured by currently pending
3-second glib timeout callbacks armed by `process_numeric_keystroke`. -/
structure ControlWindowButton where
  frontend_id : FrontendId
  frontend_button_active : Bool
  channel_selector : Nat
  frontend_window : Option FrontendWindow
  channel_number_entry_text : String
  channel_number_entry_progress : ℚ
  channel_number_entry_max_length : Nat
  channel_number_dialog_visible : Bool
  timers : List String
deriving DecidableEq

/-- Which synchronized selector a change notification came from. -/
inductive Selector where
  | main : Selector
  | window : Selector
  | fullscreen : Selector
deriving DecidableEq

/-- Calls to external collaborators, recorded in order. -/
inductive Event where
  | selectorSet : Selector → Nat → Event
  | engineStop : Event
  | setWindowTitle : String → Event
  | engineSetMrl : String → Event
  | enginePlay : Event
  | setLastChannel : String → Bool → Event
  | frontendWindowStop : Event
  | errorDialog : String → Event
  | logMessage : String → Event
  | volumeSet : ℚ → Event
deriving DecidableEq

/-- Rust panics reachable from the embedded functions. -/
inductive Panic where
  | parseFail : Panic
  | getIterFirstFail : Panic
  | nameNotInDataModel : String → Panic
  | inconsistentFrontend : Panic
  | getActiveTextFail : Panic
  | widgetKindUnknown : Panic
  | glContextFail : Panic
  | assertFrontendIdMismatch : Panic
  | impossibleKeystroke : Nat → Panic
deriving DecidableEq

/-- The externally-owned environment a coordinator reads: whether the channel
store is loaded (`ControlWindow::is_channels_store_loaded`), the name-sorted
channel rows of `channels_data_sorter`, the logical-channel-number → name
mapping (`get_channel_name_of_logical_channel_number`), the locator encoding
(`encode_to_mrl`), and the result of attempting `FrontendWindow::new`
(`none` embeds the `Err` case). -/
structure Env where
  channels_loaded : Bool
  channels : List String
  logical_to_name : Nat → Option String
  encode_to_mrl : String → String
  frontend_window_new : Option FrontendWindow

abbrev Result := Except Panic (ControlWindowButton × List Event)

/-- `reset_active_channel`: force every present selector to index 0. -/
def reset_active_channel (s : ControlWindowButton) : ControlWindowButton :=
  let s1 := { s with channel_selector := 0 }
  match s1.frontend_window with
  | none => s1
  | some fw =>
    let fw1 := { fw with channel_selector := 0, fullscreen_channel_selector := 0 }
    { s1 with frontend_window := some fw1 }

/-- `ControlWindowButton::new`: the freshly constructed coordinator state.
The entry is created with maximum length 3, progress fraction 1.0 and empty
text; the dialog is not yet shown; no frontend window exists; the selector is
forced to 0 by the `reset_active_channel` call in the constructor. -/
def ControlWindowButton.new (fid : FrontendId) : ControlWindowButton :=
  reset_active_channel
    { frontend_id := fid
      frontend_button_active := false
      channel_selector := 0
      frontend_window := none
      channel_number_entry_text := ""
      channel_number_entry_progress := 1
      channel_number_entry_max_length := 3
      channel_number_dialog_visible := false
      timers := [] }

/-- `set_channel_index`: set index `channel_index` on every synchronized
selector, but only the ones whose current value differs (lines 117-132). -/
def set_channel_index (s : ControlWindowButton) (channel_index : Nat) :
    ControlWindowButton × List Event :=
  let current := s.channel_selector
  let (s1, ev1) :=
    if current ≠ channel_index then
      ({ s with channel_selector := channel_index },
       [Event.selectorSet Selector.main channel_index])
    else (s, [])
  match s1.frontend_window with
  | none => (s1, ev1)
  | some fw =>
    let (fw1, ev2) :=
      if fw.channel_selector ≠ channel_index then
        ({ fw with channel_selector := channel_index },
         [Event.selectorSet Selector.window channel_index])
      else (fw, [])
    let (fw2, ev3) :=
      if fw1.fullscreen_channel_selector ≠ channel_index then
        ({ fw1 with fullscreen_channel_selector := channel_index },
         [Event.selectorSet Selector.fullscreen channel_index])
      else (fw1, [])
    ({ s1 with frontend_window := some fw2 }, ev1 ++ ev2 ++ ev3)

/-- `toggle_button` (lines 137-159): on activation with the channel store
loaded, attempt `FrontendWindow::new`; on failure show an error dialog and
return; on success store the window, with a panic if one was already stored.
On deactivation, take the stored window and stop it, with a panic if none
was stored. -/
def toggle_button (env : Env) (s : ControlWindowButton) : Result :=
  if s.frontend_button_active then
    if env.channels_loaded then
      match env.frontend_window_new with
      | none =>
        Except.ok (s,
          [Event.errorDialog "Could not create a frontend window, most likely because\na GStreamer engine could not be created."])
      | some fw =>
        match s.frontend_window with
        | some _ => Except.error Panic.inconsistentFrontend
        | none => Except.ok ({ s with frontend_window := some fw }, [])
    else
      Except.ok (s, [])
  else
    match s.frontend_window with
    | some _ => Except.ok ({ s with frontend_window := none }, [Event.frontendWindowStop])
    | none => Except.error Panic.inconsistentFrontend

/-- The closure connected to `frontend_button.connect_toggled` in
`ControlWindowButton::new` (lines 94-103): if the channel store is loaded,
run `toggle_button`, otherwise show an error dialog. -/
def on_frontend_button_toggled (env : Env) (s : ControlWindowButton) : Result :=
  if env.channels_loaded then toggle_button env s
  else
    Except.ok (s,
      [Event.errorDialog "No channel file, so no channel list, so cannot play a channel."])

/-- A user click on the toggle button: GTK flips the active state and then
emits the toggled signal, which runs the connected closure. -/
def user_toggle (env : Env) (s : ControlWindowButton) : Result :=
  on_frontend_button_toggled env
    { s with frontend_button_active := ! s.frontend_button_active }

/-- The downcast chain of `on_channel_changed` on the engine's video widget:
a `gtk::DrawingArea` is fine, a `gtk::GLArea` must yield a GL context
(`get_context().unwrap()`), and any other widget kind is a panic. -/
def probe_video_widget : WidgetKind → Except Panic Unit
  | WidgetKind.drawingArea => Except.ok ()
  | WidgetKind.glArea (some _) => Except.ok ()
  | WidgetKind.glArea none => Except.error Panic.glContextFail
  | WidgetKind.other => Except.error Panic.widgetKindUnknown

/-- `on_channel_changed` (lines 162-204): everything happens only when a
frontend window is present.  With the toggle active, first stop the engine,
retitle the window from the current (pre-update) selector text and probe the
video widget.  Then propagate `set_channel_index`, set the engine MRL from
the now-selected channel name, persist the last channel, and, with the toggle
active, resume playback. -/
def on_channel_changed (env : Env) (s : ControlWindowButton) (channel_index : Nat) :
    Result :=
  let status := s.frontend_button_active
  match s.frontend_window with
  | none => Except.ok (s, [])
  | some fw =>
    let stage1 : Result :=
      if status then
        match env.channels.get? s.channel_selector with
        | none => Except.error Panic.getActiveTextFail
        | some name =>
          let window_title := "Me TV – " ++ name
          match probe_video_widget fw.video_widget with
          | Except.error p => Except.error p
          | Except.ok _ =>
            let fw1 :=
              { fw with window_title := window_title, headerbar_title := window_title }
            Except.ok
              ({ s with frontend_window := some fw1 },
               [Event.engineStop, Event.setWindowTitle window_title,
                Event.logMessage "========  Channel changed callback called"])
      else Except.ok (s, [])
    match stage1 with
    | Except.error p => Except.error p
    | Except.ok (s1, ev1) =>
      let (s2, ev2) := set_channel_index s1 channel_index
      match env.channels.get? s2.channel_selector with
      | none => Except.error Panic.getActiveTextFail
      | some channel_name =>
        Except.ok (s2,
          ev1 ++ ev2 ++
          [Event.engineSetMrl (env.encode_to_mrl channel_name),
           Event.setLastChannel channel_name true] ++
          (if status then [Event.enginePlay] else []))

/-- A decimal digit character, by code point (48 to 57). -/
def isDigitChar (c : Char) : Bool := 48 ≤ c.toNat && c.toNat ≤ 57

/-- Value of a digit-character list read as a decimal numeral
(the accumulator loop of an unsigned integer parse). -/
def digitsVal (l : List Char) : Nat :=
  l.foldl (fun a c => a * 10 + (c.toNat - 48)) 0

/-- `str::parse::<u16>()`: an optional leading plus sign, then a non-empty
run of decimal digits whose value fits in 16 bits; anything else fails. -/
def parse_u16 (s : String) : Option Nat :=
  let l := s.data
  let l := if l.head? = some '+' then l.tail else l
  if l.isEmpty then none
  else if l.all isDigitChar then
    let n := digitsVal l
    if n ≤ 65535 then some n else none
  else none

/-- The iterator search of `change_channel_after_keystrokes` over the rows of
the channel model: position of the first row equal to `target`. -/
def find_channel_index : List String → String → Option Nat
  | [], _ => none
  | name :: rest, target =>
    if name = target then some 0
    else
      match find_channel_index rest target with
      | some i => some (i + 1)
      | none => none

/-- `change_channel_after_keystrokes` (lines 272-300): parse the collected
text as a u16 (unwrap: parse failure is a panic), look the number up in the
logical-channel-number → name mapping; when found, locate the name in the
channel model (`get_iter_first().unwrap()` panics on an empty model, and a
name absent from the model is an explicit panic) and `set_channel_index` it;
when not found, just log.  In every non-panicking case, finally clear the
entry text, reset the progress fraction to 1.0 and hide the dialog. -/
def change_channel_after_keystrokes (env : Env) (s : ControlWindowButton)
    (channel_number : String) : Result :=
  match parse_u16 channel_number with
  | none => Except.error Panic.parseFail
  | some n =>
    match env.logical_to_name n with
    | some channel_name =>
      if env.channels.isEmpty then Except.error Panic.getIterFirstFail
      else
        match find_channel_index env.channels channel_name with
        | none => Except.error (Panic.nameNotInDataModel channel_name)
        | some index =>
          let (s1, ev1) := set_channel_index s index
          Except.ok
            ({ s1 with channel_number_entry_text := ""
                       channel_number_entry_progress := 1
                       channel_number_dialog_visible := false }, ev1)
    | none =>
      Except.ok
        ({ s with channel_number_entry_text := ""
                  channel_number_entry_progress := 1
                  channel_number_dialog_visible := false },
         [Event.logMessage "Failed to find channel name from channel number."])

/-- The digit selection at the head of `process_numeric_keystroke`: each of
the ten numeric key codes maps to its digit, and any other code is the
panicking arm of the match. -/
def digit_of_keystroke (k : Nat) : Option Nat :=
  if k = KEY_NUMERIC_0 then some 0
  else if k = KEY_NUMERIC_1 then some 1
  else if k = KEY_NUMERIC_2 then some 2
  else if k = KEY_NUMERIC_3 then some 3
  else if k = KEY_NUMERIC_4 then some 4
  else if k = KEY_NUMERIC_5 then some 5
  else if k = KEY_NUMERIC_6 then some 6
  else if k = KEY_NUMERIC_7 then some 7
  else if k = KEY_NUMERIC_8 then some 8
  else if k = KEY_NUMERIC_9 then some 9
  else none

/-- `process_numeric_keystroke` (lines 307-344): decode the digit, show the
dialog, append the digit to the entry text and update the progress fraction
`1 - len/max_length`.  When the text has reached the maximum length, commit
at once through `change_channel_after_keystrokes`; otherwise arm a 3-second
timeout whose callback captures the current text. -/
def process_numeric_keystroke (env : Env) (s : ControlWindowButton)
    (tk : TargettedKeystroke) : Result :=
  match digit_of_keystroke tk.keystroke with
  | none => Except.error (Panic.impossibleKeystroke tk.keystroke)
  | some digit =>
    let s1 := { s with channel_number_dialog_visible := true }
    let max_length := s1.channel_number_entry_max_length
    let text := s1.channel_number_entry_text ++ toString digit
    let s2 := { s1 with channel_number_entry_text := text }
    let s3 :=
      { s2 with channel_number_entry_progress :=
          1 - (text.length : ℚ) / (max_length : ℚ) }
    if max_length ≤ text.length then
      change_channel_after_keystrokes env s3 text
    else
      Except.ok ({ s3 with timers := s3.timers ++ [text] }, [])

/-- The body of the glib timeout closure armed by `process_numeric_keystroke`
(lines 336-341): commit the captured text `t` only when the entry still holds
exactly `t`; otherwise do nothing. -/
def timer_callback (env : Env) (s : ControlWindowButton) (t : String) : Result :=
  if s.channel_number_entry_text = t then change_channel_after_keystrokes env s t
  else Except.ok (s, [])

/-- `process_targetted_keystroke` (lines 207-269): assert the keystroke is for
this front end, then dispatch on the key code.  Channel-up adds one to the
selector index with no upper clamp; channel-down subtracts one, clamped at 0;
the volume keys step the volume button within its adjustment bounds; numeric
keys with value exactly 1 go to `process_numeric_keystroke`; anything else is
logged. -/
def process_targetted_keystroke (env : Env) (s : ControlWindowButton)
    (tk : TargettedKeystroke) : Result :=
  if s.frontend_id ≠ tk.frontend_id then Except.error Panic.assertFrontendIdMismatch
  else if tk.keystroke = KEY_CHANNELUP then
    if 0 < tk.value then
      let index := s.channel_selector
      Except.ok ({ s with channel_selector := index + 1 },
                 [Event.selectorSet Selector.main (index + 1)])
    else Except.ok (s, [])
  else if tk.keystroke = KEY_CHANNELDOWN then
    if 0 < tk.value then
      let index := s.channel_selector
      if 0 < index then
        Except.ok ({ s with channel_selector := index - 1 },
                   [Event.selectorSet Selector.main (index - 1)])
      else Except.ok (s, [])
    else Except.ok (s, [])
  else if tk.keystroke = KEY_VOLUMEUP then
    if 0 < tk.value then
      match s.frontend_window with
      | some fw =>
        let volume := fw.volume_value
        let increment := fw.volume_step_increment
        let maximum := fw.volume_upper
        let new_volume := volume + increment
        if new_volume < maximum then
          let fw1 := { fw with volume_value := new_volume }
          Except.ok ({ s with frontend_window := some fw1 },
                     [Event.volumeSet new_volume])
        else
          let fw1 := { fw with volume_value := maximum }
          Except.ok ({ s with frontend_window := some fw1 },
                     [Event.volumeSet maximum])
      | none => Except.ok (s, [])
    else Except.ok (s, [])
  else if tk.keystroke = KEY_VOLUMEDOWN then
    if 0 < tk.value then
      match s.frontend_window with
      | some fw =>
        let volume := fw.volume_value
        let increment := fw.volume_step_increment
        let minimum := fw.volume_lower
        let new_volume := volume - increment
        if minimum < new_volume then
          let fw1 := { fw with volume_value := new_volume }
          Except.ok ({ s with frontend_window := some fw1 },
                     [Event.volumeSet new_volume])
        else
          let fw1 := { fw with volume_value := minimum }
          Except.ok ({ s with frontend_window := some fw1 },
                     [Event.volumeSet minimum])
      | none => Except.ok (s, [])
    else Except.ok (s, [])
  else if KEY_NUMERIC_0 ≤ tk.keystroke ∧ tk.keystroke ≤ KEY_NUMERIC_9 then
    if tk.value = 1 then process_numeric_keystroke env s tk
    else Except.ok (s, [])
  else Except.ok (s, [Event.logMessage "Got an unprocessed keystroke"])

/-- An input to the coordinator on the single-threaded UI event loop: either
a targetted keystroke or the expiry of a pending entry timeout that had
captured text `t`. -/
inductive Ev where
  | key : TargettedKeystroke → Ev
  | fire : String → Ev

/-- One UI-loop dispatch: keystrokes go to `process_targetted_keystroke`; a
timeout expiry removes the pending timer and runs its callback (an expiry
naming no pending timer does nothing). -/
def step (env : Env) (s : ControlWindowButton) : Ev → Result
  | Ev.key tk => process_targetted_keystroke env s tk
  | Ev.fire t =>
    if t ∈ s.timers then
      timer_callback env { s with timers := s.timers.erase t } t
    else Except.ok (s, [])

/-- Run a sequence of UI-loop inputs, stopping at the first panic. -/
def run (env : Env) (s : ControlWindowButton) : List Ev → Except Panic ControlWindowButton
  | [] => Except.ok s
  | e :: es =>
    match step env s e with
    | Except.error p => Except.error p
    | Except.ok (s1, _) => run env s1 es

/-- Whether an execution ended in the panic of the unchecked
`parse::<u16>().unwrap()` in `change_channel_after_keystrokes`. -/
def is_parse_fail {α : Type} : Except Panic α → Bool
  | Except.error Panic.parseFail => true
  | _ => false

/-! ### Helper lemmas about `set_channel_index` -/

lemma set_channel_index_main (s : ControlWindowButton) (i : Nat) :
    (set_channel_index s i).1.channel_selector = i := by
  unfold set_channel_index
  rcases hw : s.frontend_window with _ | fw
  · by_cases h : s.channel_selector = i <;> simp [h, hw]
  · by_cases h : s.channel_selector = i <;> simp [h, hw] <;> split <;> split <;> rfl

lemma set_channel_index_window (s : ControlWindowButton) (i : Nat)
    (fw1 : FrontendWindow) (h : (set_channel_index s i).1.frontend_window = some fw1) :
    fw1.channel_selector = i ∧ fw1.fullscreen_channel_selector = i := by
  unfold set_channel_index at h
  rcases hw : s.frontend_window with _ | fw
  · by_cases h0 : s.channel_selector = i <;> simp [h0, hw] at h
  · by_cases h0 : s.channel_selector = i <;>
      by_cases h1 : fw.channel_selector = i <;>
      by_cases h2 : fw.fullscreen_channel_selector = i <;>
      simp [h0, h1, h2, hw] at h <;>
      subst h <;>
      simp [h1, h2]

lemma set_channel_index_window_eq_none (s : ControlWindowButton) (i : Nat)
    (h : s.frontend_window = none) :
    (set_channel_index s i).1.frontend_window = none := by
  unfold set_channel_index
  by_cases h0 : s.channel_selector = i <;> simp [h0, h]

lemma set_channel_index_window_isSome (s : ControlWindowButton) (i : Nat) :
    (set_channel_index s i).1.frontend_window.isSome = s.frontend_window.isSome := by
  unfold set_channel_index
  rcases hw : s.frontend_window with _ | fw
  · by_cases h : s.channel_selector = i <;> simp [h, hw]
  · by_cases h : s.channel_selector = i <;> simp [h, hw] <;> split <;> split <;> rfl

lemma set_channel_index_entry_text (s : ControlWindowButton) (i : Nat) :
    (set_channel_index s i).1.channel_number_entry_text = s.channel_number_entry_text := by
  unfold set_channel_index
  rcases hw : s.frontend_window with _ | fw
  · by_cases h : s.channel_selector = i <;> simp [h, hw]
  · by_cases h : s.channel_selector = i <;> simp [h, hw] <;> split <;> split <;> rfl

lemma set_channel_index_timers (s : ControlWindowButton) (i : Nat) :
    (set_channel_index s i).1.timers = s.timers := by
  unfold set_channel_index
  rcases hw : s.frontend_window with _ | fw
  · by_cases h : s.channel_selector = i <;> simp [h, hw]
  · by_cases h : s.channel_selector = i <;> simp [h, hw] <;> split <;> split <;> rfl

lemma set_channel_index_active (s : ControlWindowButton) (i : Nat) :
    (set_channel_index s i).1.frontend_button_active = s.frontend_button_active := by
  unfold set_channel_index
  rcases hw : s.frontend_window with _ | fw
  · by_cases h : s.channel_selector = i <;> simp [h, hw]
  · by_cases h : s.channel_selector = i <;> simp [h, hw] <;> split <;> split <;> rfl

lemma set_channel_index_already (s : ControlWindowButton) (i : Nat)
    (h1 : s.channel_selector = i)
    (h2 : ∀ fw, s.frontend_window = some fw →
      fw.channel_selector = i ∧ fw.fullscreen_channel_selector = i) :
    set_channel_index s i = (s, []) := by
  subst h1
  unfold set_channel_index
  rcases hw : s.frontend_window with _ | fw
  · simp [hw]
  · obtain ⟨hc, hf⟩ := h2 fw hw
    simp [hw, hc, hf]
    rw [← hw]

/-! ### String and digit-parsing lemmas -/

lemma str_data_append (a b : String) : (a ++ b).data = a.data ++ b.data := rfl

lemma str_length_data (s : String) : s.length = s.data.length := by
  cases s; rfl

lemma str_length_append (a b : String) : (a ++ b).length = a.length + b.length := by
  rw [str_length_data, str_data_append, List.length_append, ← str_length_data, ← str_length_data]

lemma str_empty_append (a : String) : "" ++ a = a := by
  cases a; rfl

lemma toString_digit_data (n : Nat) (h : n ≤ 9) :
    (toString n).data = [Char.ofNat (48 + n)] := by
  interval_cases n <;> decide

lemma char_digit_toNat (n : Nat) (h : n ≤ 9) : (Char.ofNat (48 + n)).toNat = 48 + n := by
  interval_cases n <;> decide

lemma char_digit_isDigit (n : Nat) (h : n ≤ 9) : isDigitChar (Char.ofNat (48 + n)) = true := by
  interval_cases n <;> decide

lemma char_digit_ne_plus (n : Nat) (h : n ≤ 9) : (Char.ofNat (48 + n) = '+') = False := by
  interval_cases n <;> decide

lemma isDigitChar_bounds (c : Char) (h : isDigitChar c = true) :
    48 ≤ c.toNat ∧ c.toNat ≤ 57 := by
  simpa [isDigitChar, Bool.and_eq_true, decide_eq_true_eq] using h

lemma digit_toNat_le (c : Char) (h : isDigitChar c = true) : c.toNat - 48 ≤ 9 := by
  have := isDigitChar_bounds c h
  omega

lemma isDigitChar_ne_plus (c : Char) (h : isDigitChar c = true) : ¬ (c = '+') := by
  intro hc
  subst hc
  exact absurd h (by decide)

lemma parse_u16_all_digits (s : String) (h1 : s.data ≠ [])
    (h3 : ∀ c ∈ s.data, isDigitChar c = true) (h4 : digitsVal s.data ≤ 65535) :
    parse_u16 s = some (digitsVal s.data) := by
  rcases hd : s.data with _ | ⟨a, as⟩
  · exact absurd hd h1
  have ha := h3 a (by rw [hd]; exact List.mem_cons_self a as)
  have hall : (a :: as).all isDigitChar = true := by
    rw [List.all_eq_true]
    intro c hc
    exact h3 c (by rw [hd]; exact hc)
  unfold parse_u16
  rw [hd] at h4 ⊢
  simp [List.head?, isDigitChar_ne_plus a ha, hall, h4]

lemma digitsVal_le_999 (l : List Char) (h2 : l.length ≤ 3)
    (h3 : ∀ c ∈ l, isDigitChar c = true) : digitsVal l ≤ 999 := by
  rcases l with _ | ⟨a, _ | ⟨b, _ | ⟨c, _ | ⟨d, rest⟩⟩⟩⟩
  · simp [digitsVal]
  · have := digit_toNat_le a (h3 a (by simp))
    simp [digitsVal]
    omega
  · have := digit_toNat_le a (h3 a (by simp))
    have := digit_toNat_le b (h3 b (by simp))
    simp [digitsVal]
    omega
  · have := digit_toNat_le a (h3 a (by simp))
    have := digit_toNat_le b (h3 b (by simp))
    have := digit_toNat_le c (h3 c (by simp))
    simp [digitsVal]
    omega
  · simp at h2

/-! ### Concrete sample data used by witnesses and counterexamples -/

def sampleFid : FrontendId := ⟨0, 0⟩

def sampleFw : FrontendWindow :=
  { channel_selector := 0, fullscreen_channel_selector := 0,
    volume_value := 1, volume_step_increment := 1, volume_lower := 0, volume_upper := 10,
    window_title := "", headerbar_title := "", video_widget := WidgetKind.drawingArea }

/-- A loaded three-channel environment: logical channel number 2 is "ITV",
which sits at index 2 of the name-sorted list. -/
def sampleEnv : Env :=
  { channels_loaded := true, channels := ["BBC One", "BBC Two", "ITV"],
    logical_to_name := fun n => if n = 2 then some "ITV" else none,
    encode_to_mrl := fun name => "mrl:" ++ name,
    frontend_window_new := some sampleFw }

def sampleState : ControlWindowButton := ControlWindowButton.new sampleFid

/-- The sample coordinator with an attached playback window. -/
def sampleStateW : ControlWindowButton := { sampleState with frontend_window := some sampleFw }

/-- What the sample playback window becomes once both of its selectors are set
to index 1. -/
def sampleFwAt1 : FrontendWindow :=
  { sampleFw with channel_selector := 1, fullscreen_channel_selector := 1 }

/-! ### Claims C2 and C9: the synchronization fan-out -/

/-- Claim C2: for every coordinator state and every index `i`, after
`set_channel_index i` returns, the local channel selector and, when a
playback window is present, its channel selector and fullscreen channel
selector all report the same index `i`. -/
theorem c2_set_channel_index_synchronizes (s : ControlWindowButton) (i : Nat) :
    (set_channel_index s i).1.channel_selector = i ∧
    ∀ fw, (set_channel_index s i).1.frontend_window = some fw →
      fw.channel_selector = i ∧ fw.fullscreen_channel_selector = i :=
  ⟨set_channel_index_main s i, fun fw h => set_channel_index_window s i fw h⟩

/-- Witness for C2 at a concrete coordinator that has a playback window: all
three selectors report index 1 afterwards. -/
theorem c2_set_channel_index_synchronizes_witness :
    ((set_channel_index sampleStateW 1).1.channel_selector = 1 ∧
      ((set_channel_index sampleStateW 1).1.frontend_window = some sampleFwAt1 →
        sampleFwAt1.channel_selector = 1 ∧ sampleFwAt1.fullscreen_channel_selector = 1)) ∧
    (set_channel_index sampleStateW 1).1.frontend_window = some sampleFwAt1 :=
  ⟨⟨(c2_set_channel_index_synchronizes sampleStateW 1).1,
    fun h => (c2_set_channel_index_synchronizes sampleStateW 1).2 sampleFwAt1 h⟩,
   by decide⟩

/-- Claim C9: `set_channel_index` is idempotent with respect to change
notifications: a second consecutive call with the same index changes no
selector state and emits no change-notification events at all. -/
theorem c9_set_channel_index_idempotent (s : ControlWindowButton) (i : Nat) :
    set_channel_index (set_channel_index s i).1 i = ((set_channel_index s i).1, []) :=
  set_channel_index_already (set_channel_index s i).1 i (set_channel_index_main s i)
    (fun fw h => set_channel_index_window s i fw h)

/-! ### Claim C6: the stale-timer guard -/

/-- Claim C6: when the 3-second timeout callback armed with captured buffer
contents `t` fires while the entry no longer holds `t`, it commits nothing
and changes no state; only a callback whose captured text still equals the
entry text performs the commit. -/
theorem c6_stale_timer_noop (env : Env) (s : ControlWindowButton) (t : String) :
    (s.channel_number_entry_text ≠ t → timer_callback env s t = Except.ok (s, [])) ∧
    (s.channel_number_entry_text = t →
      timer_callback env s t = change_channel_after_keystrokes env s t) := by
  constructor
  · intro h
    simp [timer_callback, h]
  · intro h
    simp [timer_callback, h]

/-- Witness for C6: a callback armed with "1" fires while the entry holds
"12" and is a no-op. -/
theorem c6_stale_timer_noop_witness :
    timer_callback sampleEnv
      { sampleState with channel_number_entry_text := "12" } "1" =
      Except.ok ({ sampleState with channel_number_entry_text := "12" }, []) :=
  (c6_stale_timer_noop sampleEnv
    { sampleState with channel_number_entry_text := "12" } "1").1 (by decide)

/-! ### Claim C7: unknown logical channel number on commit -/

/-- Claim C7: when a committed numeric entry parses to a logical channel
number absent from the number → name mapping, the commit is discarded with
only a log message and the channel selection is unchanged, while the entry
buffer is still cleared, the progress fraction reset to 1.0 and the entry
dialog hidden. -/
theorem c7_unknown_number_discarded (env : Env) (s : ControlWindowButton)
    (t : String) (n : Nat) (h1 : parse_u16 t = some n)
    (h2 : env.logical_to_name n = none) :
    change_channel_after_keystrokes env s t =
      Except.ok ({ s with channel_number_entry_text := ""
                          channel_number_entry_progress := 1
                          channel_number_dialog_visible := false },
        [Event.logMessage "Failed to find channel name from channel number."]) ∧
    ({ s with channel_number_entry_text := ""
              channel_number_entry_progress := 1
              channel_number_dialog_visible := false }).channel_selector
      = s.channel_selector := by
  constructor
  · simp [change_channel_after_keystrokes, h1, h2]
  · rfl

/-- Witness for C7: committing "5" under the sample environment, whose
mapping has no entry for 5. -/
theorem c7_unknown_number_discarded_witness :
    change_channel_after_keystrokes sampleEnv sampleState "5" =
      Except.ok ({ sampleState with channel_number_entry_text := ""
                                    channel_number_entry_progress := 1
                                    channel_number_dialog_visible := false },
        [Event.logMessage "Failed to find channel name from channel number."]) ∧
    ({ sampleState with channel_number_entry_text := ""
                        channel_number_entry_progress := 1
                        channel_number_dialog_visible := false }).channel_selector
      = sampleState.channel_selector :=
  c7_unknown_number_discarded sampleEnv sampleState "5" 5 (by decide) rfl

/-! ### Claim C5: toggle activation with no channel list -/

/-- The unloaded environment: no channel file was read. -/
def c5Env : Env :=
  { channels_loaded := false, channels := [],
    logical_to_name := fun _ => none, encode_to_mrl := fun name => name,
    frontend_window_new := none }

/-- Counterexample to claim C5 as stated: activating the toggle with no
channel list loaded shows the error dialog and creates no playback window,
but the toggle button's active state is left `true` — it is neither kept
at nor reverted to `false`. -/
theorem c5_counterexample_active_not_reverted :
    user_toggle c5Env sampleState =
      Except.ok ({ sampleState with frontend_button_active := true },
        [Event.errorDialog "No channel file, so no channel list, so cannot play a channel."]) ∧
    ({ sampleState with frontend_button_active := true }).frontend_button_active = true := by
  constructor <;> rfl

/-- Claim C5 amended: when the toggle is activated while the channel list is
not loaded, a user-visible error dialog is shown, no playback window is
created, and the activation has no further effect on coordinator state —
but the toggle's active state itself remains `true` (the activation is not
reverted). -/
theorem c5_amended_error_dialog_no_window (env : Env) (s : ControlWindowButton)
    (h1 : env.channels_loaded = false) (h2 : s.frontend_button_active = false) :
    user_toggle env s =
      Except.ok ({ s with frontend_button_active := true },
        [Event.errorDialog "No channel file, so no channel list, so cannot play a channel."]) ∧
    ({ s with frontend_button_active := true }).frontend_window = s.frontend_window := by
  constructor
  · simp [user_toggle, on_frontend_button_toggled, h1, h2]
  · rfl

/-- Witness for the amended C5 at the concrete unloaded environment. -/
theorem c5_amended_error_dialog_no_window_witness :
    user_toggle c5Env sampleState =
      Except.ok ({ sampleState with frontend_button_active := true },
        [Event.errorDialog "No channel file, so no channel list, so cannot play a channel."]) ∧
    ({ sampleState with frontend_button_active := true }).frontend_window
      = sampleState.frontend_window :=
  c5_amended_error_dialog_no_window c5Env sampleState rfl rfl

/-! ### Claim C4: the missing upper clamp on channel-up -/

/-- The sample coordinator sitting at the last valid index of the 3-entry
sample channel list. -/
def c4State : ControlWindowButton := { sampleState with channel_selector := 2 }

/-- Claim C4 fails on the code: with a 3-entry channel list and the selection
at index 2 (the last valid index), a channel-up press moves the selection to
index 3, beyond channelCount − 1; the code has no upper clamp (its own TODO
notes this).  The low-end clamp does hold: channel-down at index 0 stays
at 0. -/
theorem c4_channel_up_unclamped :
    process_targetted_keystroke sampleEnv c4State ⟨sampleFid, KEY_CHANNELUP, 1⟩ =
      Except.ok ({ c4State with channel_selector := 3 },
        [Event.selectorSet Selector.main 3]) ∧
    sampleEnv.channels.length = 3 ∧
    process_targetted_keystroke sampleEnv sampleState ⟨sampleFid, KEY_CHANNELDOWN, 1⟩ =
      Except.ok (sampleState, []) := by
  refine ⟨?_, rfl, ?_⟩ <;> rfl

/-! ### Claim C1: what a channel-change notification does -/

/-- Counterexample to claim C1 as stated: with no playback window present,
`on_channel_changed 1` neither propagates `set_channel_index 1` (the
selection stays at 0) nor resolves a locator nor persists a last channel —
it returns the state unchanged with no external calls at all. -/
theorem c1_counterexample_no_window_no_effect :
    on_channel_changed sampleEnv sampleState 1 = Except.ok (sampleState, []) ∧
    sampleState.channel_selector = 0 := by
  constructor <;> rfl

/-- The committing tail of `on_channel_changed`, for any state `sA` the first
stage produced and any events `ev1` it emitted (`evp` is the trailing
play-event list): it propagates the index, and emits the MRL and
last-channel calls for the selected name. -/
lemma on_channel_changed_tail (env : Env) (i : Nat) (sA : ControlWindowButton)
    (ev1 evp : List Event) (name : String) (hname : env.channels.get? i = some name) :
    ∃ s1 evs,
      (match env.channels.get? (set_channel_index sA i).1.channel_selector with
       | none => (Except.error Panic.getActiveTextFail : Result)
       | some channel_name =>
         Except.ok ((set_channel_index sA i).1,
           ev1 ++ (set_channel_index sA i).2 ++
           [Event.engineSetMrl (env.encode_to_mrl channel_name),
            Event.setLastChannel channel_name true] ++ evp)) = Except.ok (s1, evs) ∧
      s1.channel_selector = i ∧
      (∀ fw1, s1.frontend_window = some fw1 →
        fw1.channel_selector = i ∧ fw1.fullscreen_channel_selector = i) ∧
      Event.engineSetMrl (env.encode_to_mrl name) ∈ evs ∧
      Event.setLastChannel name true ∈ evs := by
  have hsel := set_channel_index_main sA i
  have hget : env.channels.get? (set_channel_index sA i).1.channel_selector = some name := by
    rw [hsel]; exact hname
  rw [hget]
  exact ⟨_, _, rfl, hsel, fun fw1 h1 => set_channel_index_window sA i fw1 h1,
    by simp, by simp⟩

/-- Claim C1 amended: a channel-change notification propagates
`set_channel_index newIndex` to all synchronized selectors, resolves the
selected channel name to a locator handed to the engine, and persists it as
the last channel — regardless of whether the toggle is active, but only when
a playback window exists (and, when the toggle is active, when the title and
widget lookups succeed); with no playback window the notification has no
effect at all. -/
theorem c1_on_channel_changed_propagation (env : Env) (s : ControlWindowButton) (i : Nat) :
    (s.frontend_window = none → on_channel_changed env s i = Except.ok (s, [])) ∧
    (∀ fw name, s.frontend_window = some fw →
      env.channels.get? i = some name →
      (s.frontend_button_active = true →
        (env.channels.get? s.channel_selector).isSome ∧
          probe_video_widget fw.video_widget = Except.ok ()) →
      ∃ s1 evs, on_channel_changed env s i = Except.ok (s1, evs) ∧
        s1.channel_selector = i ∧
        (∀ fw1, s1.frontend_window = some fw1 →
          fw1.channel_selector = i ∧ fw1.fullscreen_channel_selector = i) ∧
        Event.engineSetMrl (env.encode_to_mrl name) ∈ evs ∧
        Event.setLastChannel name true ∈ evs) := by
  constructor
  · intro h
    simp [on_channel_changed, h]
  · intro fw name hw hname hstat
    simp only [on_channel_changed, hw]
    cases hb : s.frontend_button_active with
    | false =>
      exact on_channel_changed_tail env i s [] [] name hname
    | true =>
      obtain ⟨hsome, hwid⟩ := hstat hb
      obtain ⟨oldname, holdname⟩ := Option.isSome_iff_exists.mp hsome
      simp only [holdname, hwid]
      exact on_channel_changed_tail env i
        { s with frontend_button_active := true, frontend_window := some { fw with window_title := "Me TV – " ++ oldname, headerbar_title := "Me TV – " ++ oldname } }
        [Event.engineStop, Event.setWindowTitle ("Me TV – " ++ oldname),
         Event.logMessage "========  Channel changed callback called"]
        [Event.enginePlay] name hname

/-- The sample coordinator with a playback window and its toggle active. -/
def c1WitState : ControlWindowButton := { sampleStateW with frontend_button_active := true }

/-- Witness for the amended C1: a notification for index 1 with the toggle
active and a window present propagates the index everywhere and emits the
locator and last-channel calls for "BBC Two". -/
theorem c1_on_channel_changed_propagation_witness :
    ∃ s1 evs, on_channel_changed sampleEnv c1WitState 1 = Except.ok (s1, evs) ∧
      s1.channel_selector = 1 ∧
      (∀ fw1, s1.frontend_window = some fw1 →
        fw1.channel_selector = 1 ∧ fw1.fullscreen_channel_selector = 1) ∧
      Event.engineSetMrl (sampleEnv.encode_to_mrl "BBC Two") ∈ evs ∧
      Event.setLastChannel "BBC Two" true ∈ evs :=
  (c1_on_channel_changed_propagation sampleEnv c1WitState 1).2 sampleFw "BBC Two"
    rfl rfl (fun _ => ⟨by decide, rfl⟩)

/-! ### Claim C8: the toggle/window 1:1 invariant -/

/-- Claim C8: a successful toggle transition (one that actually changed the
stored window reference) leaves the coordinator holding a playback window
reference exactly when its toggle is active; activating while a window
reference already exists is a fatal internal-consistency panic, and
deactivating while none exists is likewise fatal. -/
theorem c8_toggle_window_one_to_one (env : Env) (s s1 : ControlWindowButton)
    (evs : List Event) :
    (toggle_button env s = Except.ok (s1, evs) →
      s1.frontend_window ≠ s.frontend_window →
      s1.frontend_window.isSome = s1.frontend_button_active) ∧
    (s.frontend_button_active = true → env.channels_loaded = true →
      env.frontend_window_new ≠ none → s.frontend_window ≠ none →
      toggle_button env s = Except.error Panic.inconsistentFrontend) ∧
    (s.frontend_button_active = false → s.frontend_window = none →
      toggle_button env s = Except.error Panic.inconsistentFrontend) := by
  refine ⟨?_, ?_, ?_⟩
  · intro hok hne
    unfold toggle_button at hok
    cases hb : s.frontend_button_active with
    | true =>
      rw [hb] at hok
      cases hl : env.channels_loaded with
      | false =>
        rw [hl] at hok
        simp only [Bool.false_eq_true, if_false, if_true] at hok
        cases hok
        exact absurd rfl hne
      | true =>
        rw [hl] at hok
        simp only [if_true] at hok
        cases hfn : env.frontend_window_new with
        | none =>
          rw [hfn] at hok
          cases hok
          exact absurd rfl hne
        | some fw =>
          rw [hfn] at hok
          cases hfw : s.frontend_window with
          | some old => rw [hfw] at hok; cases hok
          | none =>
            rw [hfw] at hok
            cases hok
            simp [hb]
    | false =>
      rw [hb] at hok
      simp only [Bool.false_eq_true, if_false] at hok
      cases hfw : s.frontend_window with
      | some old =>
        rw [hfw] at hok
        cases hok
        simp [hb]
      | none => rw [hfw] at hok; cases hok
  · intro hb hl hfn hfw
    unfold toggle_button
    rw [hb, hl]
    cases hfn2 : env.frontend_window_new with
    | none => exact absurd hfn2 hfn
    | some fw =>
      cases hfw2 : s.frontend_window with
      | none => exact absurd hfw2 hfw
      | some old => simp
  · intro hb hfw
    unfold toggle_button
    rw [hb, hfw]
    simp

/-- The sample coordinator with its toggle active but no window yet. -/
def c8ActState : ControlWindowButton := { sampleState with frontend_button_active := true }

/-- The same coordinator once the window reference is stored. -/
def c8ActStateW : ControlWindowButton := { c8ActState with frontend_window := some sampleFw }

/-- Witness for C8 at concrete states: a successful activation ends with a
window held while active, a second activation attempt with the window still
held panics, and a deactivation with no window held panics. -/
theorem c8_toggle_window_one_to_one_witness :
    c8ActStateW.frontend_window.isSome = c8ActStateW.frontend_button_active ∧
    toggle_button sampleEnv c8ActStateW = Except.error Panic.inconsistentFrontend ∧
    toggle_button sampleEnv sampleState = Except.error Panic.inconsistentFrontend :=
  ⟨(c8_toggle_window_one_to_one sampleEnv c8ActState c8ActStateW []).1 rfl (by decide),
   (c8_toggle_window_one_to_one sampleEnv c8ActStateW c8ActStateW []).2.1 rfl rfl
     (by decide) (by decide),
   (c8_toggle_window_one_to_one sampleEnv sampleState sampleState []).2.2 rfl rfl⟩

/-! ### Machinery for claims C3 and C10 -/

lemma digit_of_keystroke_numeric (d : Nat) (hd : d ≤ 9) :
    digit_of_keystroke (512 + d) = some d := by
  interval_cases d <;> rfl

lemma toString_digit_length (n : Nat) (h : n ≤ 9) : (toString n).length = 1 := by
  rw [str_length_data, toString_digit_data n h]
  rfl

/-- Whether resolve-and-commit of logical channel number `n` avoids both of
its panics: either the number is unmapped, or the mapped name is present in
the channel model. -/
def commit_ok (env : Env) (n : Nat) : Bool :=
  match env.logical_to_name n with
  | none => true
  | some name => decide (name ∈ env.channels)

lemma find_channel_index_of_mem {l : List String} {name : String} (h : name ∈ l) :
    ∃ i, find_channel_index l name = some i := by
  induction l with
  | nil => cases h
  | cons a as ih =>
    rcases List.mem_cons.mp h with rfl | hmem
    · exact ⟨0, by simp [find_channel_index]⟩
    · by_cases ha : a = name
      · exact ⟨0, by simp [find_channel_index, ha]⟩
      · obtain ⟨i, hi⟩ := ih hmem
        exact ⟨i + 1, by simp [find_channel_index, ha, hi]⟩

lemma change_channel_ok (env : Env) (s : ControlWindowButton) (t : String) (n : Nat)
    (hp : parse_u16 t = some n) (hc : commit_ok env n = true) :
    ∃ s1 evs, change_channel_after_keystrokes env s t = Except.ok (s1, evs) ∧
      s1.channel_number_entry_text = "" ∧ s1.channel_number_entry_progress = 1 ∧
      s1.channel_number_dialog_visible = false ∧ s1.timers = s.timers := by
  unfold change_channel_after_keystrokes
  simp only [hp]
  unfold commit_ok at hc
  cases hl : env.logical_to_name n with
  | none =>
    simp only [hl]
    exact ⟨_, _, rfl, rfl, rfl, rfl, rfl⟩
  | some name =>
    rw [hl] at hc
    simp only [hl]
    have hmem : name ∈ env.channels := of_decide_eq_true hc
    have hne : env.channels.isEmpty = false := by
      cases hcs : env.channels
      · rw [hcs] at hmem; cases hmem
      · rfl
    rw [hne]
    obtain ⟨i, hfind⟩ := find_channel_index_of_mem hmem
    rw [hfind]
    refine ⟨_, _, rfl, rfl, rfl, rfl, ?_⟩
    simp [set_channel_index_timers]
lemma parse_three_digits (d1 d2 d3 : Nat) (hd1 : d1 ≤ 9) (hd2 : d2 ≤ 9) (hd3 : d3 ≤ 9) :
    parse_u16 (toString d1 ++ toString d2 ++ toString d3) =
      some (100 * d1 + 10 * d2 + d3) := by
  have hdata : (toString d1 ++ toString d2 ++ toString d3).data =
      [Char.ofNat (48 + d1), Char.ofNat (48 + d2), Char.ofNat (48 + d3)] := by
    rw [str_data_append, str_data_append, toString_digit_data d1 hd1,
      toString_digit_data d2 hd2, toString_digit_data d3 hd3]
    rfl
  have hdig : ∀ c ∈ (toString d1 ++ toString d2 ++ toString d3).data, isDigitChar c = true := by
    rw [hdata]
    intro c hc
    simp only [List.mem_cons, List.not_mem_nil, or_false] at hc
    rcases hc with rfl | rfl | rfl
    · exact char_digit_isDigit d1 hd1
    · exact char_digit_isDigit d2 hd2
    · exact char_digit_isDigit d3 hd3
  have hval : digitsVal (toString d1 ++ toString d2 ++ toString d3).data =
      100 * d1 + 10 * d2 + d3 := by
    rw [hdata]
    simp [digitsVal, char_digit_toNat d1 hd1, char_digit_toNat d2 hd2,
      char_digit_toNat d3 hd3]
    omega
  rw [parse_u16_all_digits _ (by rw [hdata]; simp) hdig (by rw [hval]; omega), hval]

lemma process_numeric_arm (env : Env) (s : ControlWindowButton) (fid : FrontendId)
    (d : Nat) (hd : d ≤ 9)
    (hlen : ¬ s.channel_number_entry_max_length ≤
      (s.channel_number_entry_text ++ toString d).length) :
    process_numeric_keystroke env s ⟨fid, 512 + d, 1⟩ =
      Except.ok ({ s with channel_number_dialog_visible := true
                          channel_number_entry_text := s.channel_number_entry_text ++ toString d
                          channel_number_entry_progress := 1 - ((s.channel_number_entry_text ++ toString d).length : ℚ) / (s.channel_number_entry_max_length : ℚ)
                          timers := s.timers ++ [s.channel_number_entry_text ++ toString d] }, []) := by
  unfold process_numeric_keystroke
  rw [digit_of_keystroke_numeric d hd]
  simp only []
  rw [if_neg hlen]

lemma process_numeric_commit (env : Env) (s : ControlWindowButton) (fid : FrontendId)
    (d : Nat) (hd : d ≤ 9)
    (hlen : s.channel_number_entry_max_length ≤
      (s.channel_number_entry_text ++ toString d).length) :
    process_numeric_keystroke env s ⟨fid, 512 + d, 1⟩ =
      change_channel_after_keystrokes env
        { s with channel_number_dialog_visible := true
                 channel_number_entry_text := s.channel_number_entry_text ++ toString d
                 channel_number_entry_progress := 1 - ((s.channel_number_entry_text ++ toString d).length : ℚ) / (s.channel_number_entry_max_length : ℚ) }
        (s.channel_number_entry_text ++ toString d) := by
  unfold process_numeric_keystroke
  rw [digit_of_keystroke_numeric d hd]
  simp only []
  rw [if_pos hlen]

/-- Claim C3: starting from an empty entry buffer (with the construction-time
maximum length 3), entering exactly three digits with no intervening timeout
commits immediately on the third digit — no timer is armed by it — and after
the commit the buffer is empty, the progress fraction is 1.0 and the dialog
is hidden. -/
theorem c3_three_digits_commit_immediately (env : Env) (s : ControlWindowButton)
    (fid : FrontendId) (d1 d2 d3 : Nat) (hd1 : d1 ≤ 9) (hd2 : d2 ≤ 9) (hd3 : d3 ≤ 9)
    (h0 : s.channel_number_entry_text = "")
    (hml : s.channel_number_entry_max_length = 3)
    (hc : commit_ok env (100 * d1 + 10 * d2 + d3) = true) :
    ∃ s1 s2 s3 ev3,
      process_numeric_keystroke env s ⟨fid, KEY_NUMERIC_0 + d1, 1⟩ = Except.ok (s1, []) ∧
      process_numeric_keystroke env s1 ⟨fid, KEY_NUMERIC_0 + d2, 1⟩ = Except.ok (s2, []) ∧
      process_numeric_keystroke env s2 ⟨fid, KEY_NUMERIC_0 + d3, 1⟩ = Except.ok (s3, ev3) ∧
      s3.channel_number_entry_text = "" ∧
      s3.channel_number_entry_progress = 1 ∧
      s3.channel_number_dialog_visible = false ∧
      s3.timers = s2.timers := by
  have hl1 : (toString d1).length = 1 := toString_digit_length d1 hd1
  have hl2 : (toString d2).length = 1 := toString_digit_length d2 hd2
  have hl3 : (toString d3).length = 1 := toString_digit_length d3 hd3
  have hstep1 := process_numeric_arm env s fid d1 hd1
    (by simp [hml, h0, str_empty_append, hl1])
  simp only [h0, str_empty_append] at hstep1
  have hstep2 := process_numeric_arm env
    { s with channel_number_dialog_visible := true
             channel_number_entry_text := toString d1
             channel_number_entry_progress := 1 - (((toString d1).length : ℚ)) / ((s.channel_number_entry_max_length : ℚ))
             timers := s.timers ++ [toString d1] }
    fid d2 hd2 (by simp [hml, str_length_append, hl1, hl2])
  dsimp only at hstep2
  have hstep3 := process_numeric_commit env
    { s with channel_number_dialog_visible := true
             channel_number_entry_text := toString d1 ++ toString d2
             channel_number_entry_progress := 1 - (((toString d1 ++ toString d2).length : ℚ)) / ((s.channel_number_entry_max_length : ℚ))
             timers := s.timers ++ [toString d1] ++ [toString d1 ++ toString d2] }
    fid d3 hd3 (by simp [hml, str_length_append, hl1, hl2, hl3])
  dsimp only at hstep3
  obtain ⟨s3v, ev3v, hcc, hentry, hprog, hdial, htm⟩ := change_channel_ok env
    { s with channel_number_dialog_visible := true
             channel_number_entry_text := toString d1 ++ toString d2 ++ toString d3
             channel_number_entry_progress := 1 - (((toString d1 ++ toString d2 ++ toString d3).length : ℚ)) / ((s.channel_number_entry_max_length : ℚ))
             timers := s.timers ++ [toString d1] ++ [toString d1 ++ toString d2] }
    (toString d1 ++ toString d2 ++ toString d3) (100 * d1 + 10 * d2 + d3)
    (parse_three_digits d1 d2 d3 hd1 hd2 hd3) hc
  refine ⟨_, _, s3v, ev3v, hstep1, hstep2, hstep3.trans hcc, hentry, hprog, hdial, ?_⟩
  rw [htm]

/-- Witness for C3 (Scenario A): digits 0, 0, 2 from the freshly constructed
coordinator under the sample environment commit immediately on the third
digit. -/
theorem c3_three_digits_commit_immediately_witness :
    ∃ s1 s2 s3 ev3,
      process_numeric_keystroke sampleEnv sampleState ⟨sampleFid, KEY_NUMERIC_0 + 0, 1⟩ =
        Except.ok (s1, []) ∧
      process_numeric_keystroke sampleEnv s1 ⟨sampleFid, KEY_NUMERIC_0 + 0, 1⟩ =
        Except.ok (s2, []) ∧
      process_numeric_keystroke sampleEnv s2 ⟨sampleFid, KEY_NUMERIC_0 + 2, 1⟩ =
        Except.ok (s3, ev3) ∧
      s3.channel_number_entry_text = "" ∧
      s3.channel_number_entry_progress = 1 ∧
      s3.channel_number_dialog_visible = false ∧
      s3.timers = s2.timers :=
  c3_three_digits_commit_immediately sampleEnv sampleState sampleFid 0 0 2
    (by decide) (by decide) (by decide) rfl rfl (by decide)

/-! ### Claim C10: the commit parse cannot panic -/

lemma digit_of_keystroke_le {k d : Nat} (h : digit_of_keystroke k = some d) : d ≤ 9 := by
  unfold digit_of_keystroke at h
  repeat' split at h
  all_goals first
  | (cases h; omega)
  | cases h

lemma set_channel_index_max_length (s : ControlWindowButton) (i : Nat) :
    (set_channel_index s i).1.channel_number_entry_max_length
      = s.channel_number_entry_max_length := by
  unfold set_channel_index
  rcases hw : s.frontend_window with _ | fw
  · by_cases h : s.channel_selector = i <;> simp [h, hw]
  · by_cases h : s.channel_selector = i <;> simp [h, hw] <;> split <;> split <;> rfl

/-- A pending timeout's captured text: non-empty, at most two characters,
all decimal digits. -/
def GoodBuf (t : String) : Prop :=
  t.data ≠ [] ∧ t.data.length ≤ 2 ∧ ∀ c ∈ t.data, isDigitChar c = true

/-- The reachability invariant of the numeric channel-entry machinery: the
entry keeps its construction-time maximum length 3, holds at most two digit
characters at rest, and every pending timer captured a non-empty text of at
most two digit characters. -/
def EntryInv (s : ControlWindowButton) : Prop :=
  s.channel_number_entry_max_length = 3 ∧
  s.channel_number_entry_text.data.length ≤ 2 ∧
  (∀ c ∈ s.channel_number_entry_text.data, isDigitChar c = true) ∧
  ∀ t ∈ s.timers, GoodBuf t

lemma parse_of_short_digits (t : String) (h1 : t.data ≠ []) (h2 : t.data.length ≤ 3)
    (h3 : ∀ c ∈ t.data, isDigitChar c = true) : ∃ n, parse_u16 t = some n := by
  refine ⟨digitsVal t.data, parse_u16_all_digits t h1 h3 ?_⟩
  have := digitsVal_le_999 t.data h2 h3
  omega

lemma change_channel_not_parse_fail (env : Env) (s : ControlWindowButton) (t : String)
    (n : Nat) (hp : parse_u16 t = some n) :
    is_parse_fail (change_channel_after_keystrokes env s t) = false := by
  unfold change_channel_after_keystrokes
  simp only [hp]
  cases hl : env.logical_to_name n with
  | none => simp only [hl]; rfl
  | some name =>
    simp only [hl]
    cases hie : env.channels.isEmpty
    · cases hf : find_channel_index env.channels name
      · simp only [hie, hf]; rfl
      · simp only [hie, hf]; rfl
    · simp only [hie]; rfl

lemma change_channel_fields_of_ok (env : Env) (s : ControlWindowButton) (t : String)
    (s1 : ControlWindowButton) (evs : List Event)
    (h : change_channel_after_keystrokes env s t = Except.ok (s1, evs)) :
    s1.channel_number_entry_text = "" ∧ s1.timers = s.timers ∧
    s1.channel_number_entry_max_length = s.channel_number_entry_max_length := by
  unfold change_channel_after_keystrokes at h
  cases hp : parse_u16 t with
  | none => rw [hp] at h; cases h
  | some n =>
    simp only [hp] at h
    cases hl : env.logical_to_name n with
    | none =>
      simp only [hl] at h
      cases h
      exact ⟨rfl, rfl, rfl⟩
    | some name =>
      simp only [hl] at h
      cases hie : env.channels.isEmpty
      · simp only [hie, Bool.false_eq_true, if_false] at h
        cases hf : find_channel_index env.channels name
        · simp only [hf] at h
          cases h
        · simp only [hf] at h
          cases h
          exact ⟨rfl, by simp [set_channel_index_timers],
            by simp [set_channel_index_max_length]⟩
      · simp only [hie, if_true] at h
        cases h
lemma process_numeric_keystroke_inv (env : Env) (s : ControlWindowButton)
    (tk : TargettedKeystroke) (hinv : EntryInv s) :
    is_parse_fail (process_numeric_keystroke env s tk) = false ∧
    ∀ s1 evs, process_numeric_keystroke env s tk = Except.ok (s1, evs) → EntryInv s1 := by
  obtain ⟨hml, hlen2, hdigs, htimers⟩ := hinv
  unfold process_numeric_keystroke
  cases hd : digit_of_keystroke tk.keystroke with
  | none =>
    simp only [hd]
    exact ⟨rfl, fun s1 evs h => by cases h⟩
  | some d =>
    simp only [hd]
    have hd9 : d ≤ 9 := digit_of_keystroke_le hd
    have hdata : (s.channel_number_entry_text ++ toString d).data
        = s.channel_number_entry_text.data ++ [Char.ofNat (48 + d)] := by
      rw [str_data_append, toString_digit_data d hd9]
    have hdig : ∀ c ∈ (s.channel_number_entry_text ++ toString d).data,
        isDigitChar c = true := by
      rw [hdata]
      intro c hc
      rcases List.mem_append.mp hc with h | h
      · exact hdigs c h
      · simp only [List.mem_singleton] at h
        subst h
        exact char_digit_isDigit d hd9
    have hlen : (s.channel_number_entry_text ++ toString d).data.length
        = s.channel_number_entry_text.data.length + 1 := by
      rw [hdata, List.length_append]
      rfl
    have hne : (s.channel_number_entry_text ++ toString d).data ≠ [] := by
      intro hz
      rw [hz] at hlen
      simp at hlen
    by_cases hc3 : s.channel_number_entry_max_length ≤
        (s.channel_number_entry_text ++ toString d).length
    · rw [if_pos hc3]
      obtain ⟨n, hp⟩ := parse_of_short_digits (s.channel_number_entry_text ++ toString d)
        hne (by rw [← str_length_data] at hlen ⊢; omega) hdig
      constructor
      · exact change_channel_not_parse_fail env _ _ n hp
      · intro s1 evs h
        obtain ⟨hent, htim, hmax⟩ := change_channel_fields_of_ok env _ _ s1 evs h
        refine ⟨by rw [hmax]; exact hml, by simp [hent], by simp [hent], ?_⟩
        rw [htim]
        exact htimers
    · rw [if_neg hc3]
      constructor
      · rfl
      · intro s1 evs h
        cases h
        rw [hml] at hc3
        rw [str_length_data, hlen] at hc3
        refine ⟨hml, ?_, hdig, ?_⟩
        · rw [hlen]; omega
        · intro u hu
          rcases List.mem_append.mp hu with h | h
          · exact htimers u h
          · simp only [List.mem_singleton] at h
            subst h
            exact ⟨hne, by rw [hlen]; omega, hdig⟩

lemma process_targetted_keystroke_inv (env : Env) (s : ControlWindowButton)
    (tk : TargettedKeystroke) (hinv : EntryInv s) :
    is_parse_fail (process_targetted_keystroke env s tk) = false ∧
    ∀ s1 evs, process_targetted_keystroke env s tk = Except.ok (s1, evs) → EntryInv s1 := by
  unfold process_targetted_keystroke
  by_cases h1 : s.frontend_id ≠ tk.frontend_id
  · rw [if_pos h1]
    exact ⟨rfl, fun s1 evs h => by cases h⟩
  rw [if_neg h1]
  by_cases h2 : tk.keystroke = KEY_CHANNELUP
  · rw [if_pos h2]
    by_cases h3 : 0 < tk.value
    · rw [if_pos h3]
      exact ⟨rfl, fun s1 evs h => by cases h; exact hinv⟩
    · rw [if_neg h3]
      exact ⟨rfl, fun s1 evs h => by cases h; exact hinv⟩
  rw [if_neg h2]
  by_cases h4 : tk.keystroke = KEY_CHANNELDOWN
  · rw [if_pos h4]
    by_cases h5 : 0 < tk.value
    · rw [if_pos h5]
      by_cases h6 : 0 < s.channel_selector
      · rw [if_pos h6]
        exact ⟨rfl, fun s1 evs h => by cases h; exact hinv⟩
      · rw [if_neg h6]
        exact ⟨rfl, fun s1 evs h => by cases h; exact hinv⟩
    · rw [if_neg h5]
      exact ⟨rfl, fun s1 evs h => by cases h; exact hinv⟩
  rw [if_neg h4]
  by_cases h7 : tk.keystroke = KEY_VOLUMEUP
  · rw [if_pos h7]
    by_cases h8 : 0 < tk.value
    · rw [if_pos h8]
      cases hfw : s.frontend_window with
      | none =>
        simp only [hfw]
        exact ⟨rfl, fun s1 evs h => by cases h; exact hinv⟩
      | some fw =>
        simp only [hfw]
        by_cases h9 : fw.volume_value + fw.volume_step_increment < fw.volume_upper
        · rw [if_pos h9]
          exact ⟨rfl, fun s1 evs h => by cases h; exact hinv⟩
        · rw [if_neg h9]
          exact ⟨rfl, fun s1 evs h => by cases h; exact hinv⟩
    · rw [if_neg h8]
      exact ⟨rfl, fun s1 evs h => by cases h; exact hinv⟩
  rw [if_neg h7]
  by_cases h10 : tk.keystroke = KEY_VOLUMEDOWN
  · rw [if_pos h10]
    by_cases h11 : 0 < tk.value
    · rw [if_pos h11]
      cases hfw : s.frontend_window with
      | none =>
        simp only [hfw]
        exact ⟨rfl, fun s1 evs h => by cases h; exact hinv⟩
      | some fw =>
        simp only [hfw]
        by_cases h12 : fw.volume_lower < fw.volume_value - fw.volume_step_increment
        · rw [if_pos h12]
          exact ⟨rfl, fun s1 evs h => by cases h; exact hinv⟩
        · rw [if_neg h12]
          exact ⟨rfl, fun s1 evs h => by cases h; exact hinv⟩
    · rw [if_neg h11]
      exact ⟨rfl, fun s1 evs h => by cases h; exact hinv⟩
  rw [if_neg h10]
  by_cases h13 : KEY_NUMERIC_0 ≤ tk.keystroke ∧ tk.keystroke ≤ KEY_NUMERIC_9
  · rw [if_pos h13]
    by_cases h14 : tk.value = 1
    · rw [if_pos h14]
      exact process_numeric_keystroke_inv env s tk ⟨hinv.1, hinv.2.1, hinv.2.2.1, hinv.2.2.2⟩
    · rw [if_neg h14]
      exact ⟨rfl, fun s1 evs h => by cases h; exact hinv⟩
  · rw [if_neg h13]
    exact ⟨rfl, fun s1 evs h => by cases h; exact hinv⟩

lemma step_inv (env : Env) (s : ControlWindowButton) (e : Ev) (hinv : EntryInv s) :
    is_parse_fail (step env s e) = false ∧
    ∀ s1 evs, step env s e = Except.ok (s1, evs) → EntryInv s1 := by
  cases e with
  | key tk => exact process_targetted_keystroke_inv env s tk hinv
  | fire t =>
    unfold step
    dsimp only
    by_cases hm : t ∈ s.timers
    · rw [if_pos hm]
      have hinv2 : EntryInv { s with timers := s.timers.erase t } :=
        ⟨hinv.1, hinv.2.1, hinv.2.2.1,
         fun u hu => hinv.2.2.2 u (List.mem_of_mem_erase hu)⟩
      unfold timer_callback
      by_cases he : ({ s with timers := s.timers.erase t } :
          ControlWindowButton).channel_number_entry_text = t
      · rw [if_pos he]
        have hgood : GoodBuf t := hinv.2.2.2 t hm
        obtain ⟨n, hp⟩ := parse_of_short_digits t hgood.1
          (by have := hgood.2.1; omega) hgood.2.2
        constructor
        · exact change_channel_not_parse_fail env _ t n hp
        · intro s1 evs h
          obtain ⟨hent, htim, hmax⟩ := change_channel_fields_of_ok env _ t s1 evs h
          exact ⟨by rw [hmax]; exact hinv2.1, by simp [hent], by simp [hent],
            by rw [htim]; exact hinv2.2.2.2⟩
      · rw [if_neg he]
        exact ⟨rfl, fun s1 evs h => by cases h; exact hinv2⟩
    · rw [if_neg hm]
      exact ⟨rfl, fun s1 evs h => by cases h; exact hinv⟩

lemma is_parse_fail_error {α β : Type} (p : Panic)
    (h : is_parse_fail (Except.error p : Except Panic α) = false) :
    is_parse_fail (Except.error p : Except Panic β) = false := by
  cases p <;> simp [is_parse_fail] at h ⊢

lemma run_inv (env : Env) (evs : List Ev) :
    ∀ s, EntryInv s → is_parse_fail (run env s evs) = false := by
  induction evs with
  | nil =>
    intro s _
    rfl
  | cons e es ih =>
    intro s hinv
    obtain ⟨h1, h2⟩ := step_inv env s e hinv
    unfold run
    cases hstep : step env s e with
    | error p =>
      rw [hstep] at h1
      simp only [hstep]
      exact is_parse_fail_error p h1
    | ok pr =>
      rcases pr with ⟨s1, evl⟩
      simp only [hstep]
      exact ih s1 (h2 s1 evl hstep)

lemma entry_inv_new (fid : FrontendId) : EntryInv (ControlWindowButton.new fid) := by
  refine ⟨rfl, ?_, ?_, ?_⟩
  · simp [ControlWindowButton.new, reset_active_channel]
  · intro c hc
    simp [ControlWindowButton.new, reset_active_channel] at hc
  · intro u hu
    simp [ControlWindowButton.new, reset_active_channel] at hu

/-- Claim C10: the unchecked `parse::<u16>().unwrap()` in resolve-and-commit
can never fail: along every sequence of UI-loop inputs (keystrokes and timer
expiries) from a freshly constructed coordinator, every buffer handed to the
commit is a non-empty string of at most three decimal digits, so the parse
panic is unreachable. -/
theorem c10_commit_parse_never_fails (env : Env) (fid : FrontendId) (evs : List Ev) :
    is_parse_fail (run env (ControlWindowButton.new fid) evs) = false :=
  run_inv env evs (ControlWindowButton.new fid) (entry_inv_new fid)

end MeTV



